import Mathlib

/-!
A shallow embedding, in Lean 4, of the "buy credits with USDC" core of the
arc-commerce repository:

* `src/app/api/circle/payment/route.ts` — the custodial payment POST route
  (wallet lookup, admin wallet lookup, token lookup in the balance listing,
  decimal-to-smallest-unit amount conversion, Circle `createTransaction`
  dispatch, and Supabase insert of the transaction row);
* `PurchaseCreditsCard` (React client component) — `requiredUsdc`,
  `requiredUsdcMicro`, `hasSufficientBalance`, `buttonDisabled`, and the
  request bodies built by `handleExternalPurchase` / `handleCirclePurchase`;
* the custodial balance GET route — token lookup and the
  `{ balance, rawBalance }` response.

JavaScript numbers are IEEE-754 binary64 values.  We model a double by its
exact rational value, `toFloat q` being the binary64 value nearest to `q`
(round half to even), valid on the normal finite range, which covers every
quantity these routes handle.  JavaScript string/number truthiness is made
explicit (`0` and `""` are falsy).
-/

/- Batteries marks the `Rat` field operations `@[irreducible]`, which blocks
`decide` from evaluating concrete rational arithmetic; restore the default
reducibility for this development (kernel checking is unaffected). -/
attribute [local semireducible] Rat.add Rat.mul Rat.sub Rat.inv

namespace ArcCommerce

/-- Exact value of a decimal-digit list, most significant first. -/
def digitsVal : List Char → ℕ → ℕ
  | [], acc => acc
  | c :: cs, acc => digitsVal cs (10 * acc + (c.toNat - 48))

/-- Least `k` with `2 ^ 52 * d ≤ n * 2 ^ k`, found by doubling `n`;
`fuel` bounds the search (1100 exceeds the binary64 exponent range). -/
def scaleExp (fuel : ℕ) (n d : ℕ) : ℕ :=
  match fuel with
  | 0 => 0
  | fuel + 1 => if 2 ^ 52 * d ≤ n then 0 else scaleExp fuel (2 * n) d + 1

/-- Round a rational to the nearest integer, ties to even
(IEEE-754 default rounding). -/
def rhe (q : ℚ) : ℤ :=
  let f := q.floor
  let r := q - f
  if r < 1 / 2 then f
  else if 1 / 2 < r then f + 1
  else if f % 2 = 0 then f else f + 1

/-- The binary64 double nearest to a positive rational `q` (round half to
even), as its exact rational value: scale `q` into `[2 ^ 52, 2 ^ 53)`,
round to an integer significand, and scale back.  Faithful on the normal
range (all quantities in this repository). -/
def toFloatPos (q : ℚ) : ℚ :=
  let k := scaleExp 1100 q.num.toNat q.den
  (rhe (q * 2 ^ k) : ℚ) / 2 ^ k

/-- The binary64 double nearest to a rational `q`, as its exact rational
value. -/
def toFloat (q : ℚ) : ℚ :=
  if q = 0 then 0
  else if 0 < q then toFloatPos q
  else -toFloatPos (-q)

/-- JavaScript `x * y` on doubles `x`, `y`: the exact product, rounded back
to a double. -/
def jsMul (x y : ℚ) : ℚ := toFloat (x * y)

/-- ECMA-262 `Math.round`: nearest integer, ties toward `+∞`. -/
def jsRound (q : ℚ) : ℤ := (q + 1 / 2).floor

/-- JavaScript `Math.floor` on a double, as an integer. -/
def jsFloor (q : ℚ) : ℤ := q.floor

/-- `parseFloat` on a plain decimal string `"[digits][.digits]"` (the shape
the Circle balance API returns): the exact decimal value, if the string has
at least one digit.  `none` models `NaN`. -/
def parseDecimal (s : String) : Option ℚ :=
  let cs := s.data
  let intPart := cs.takeWhile Char.isDigit
  let rest := cs.dropWhile Char.isDigit
  let fracPart :=
    match rest with
    | '.' :: r => r.takeWhile Char.isDigit
    | _ => []
  if intPart.isEmpty ∧ fracPart.isEmpty then none
  else some ((digitsVal intPart 0 : ℚ) + (digitsVal fracPart 0 : ℚ) / 10 ^ fracPart.length)

/-- JavaScript `parseFloat`: parse the decimal prefix, then round to a
double.  `none` models `NaN`. -/
def jsParseFloat (s : String) : Option ℚ :=
  (parseDecimal s).map toFloat

/-- A JSON value as the routes see it: a number (a double, by its exact
rational value), a string, or null/undefined. -/
inductive JSVal where
  | num (q : ℚ)
  | str (s : String)
  | null
deriving DecidableEq

/-- JavaScript truthiness: `0` and `""` (and `null`/`undefined`) are
falsy. -/
def JSVal.truthy : JSVal → Bool
  | .num q => q != 0
  | .str s => s != ""
  | .null => false

/-- Truthiness of a nullable string (`null`/`undefined`/`""` are falsy). -/
def strTruthy : Option String → Bool
  | some s => s != ""
  | none => false

/-- `typeof usdcAmount === 'string' ? parseFloat(usdcAmount) : usdcAmount`
(route.ts line 111).  `none` models `NaN`. -/
def JSVal.toNum : JSVal → Option ℚ
  | .num q => some q
  | .str s => jsParseFloat s
  | .null => none

/-! ## The custodial payment route (`src/app/api/circle/payment/route.ts`) -/

/-- A row of the `wallets` table, as selected by the route. -/
structure WalletRow where
  circle_wallet_id : String
  blockchain : String
  address : String
  type : String
deriving DecidableEq

/-- A row of the `admin_wallets` table, as selected by the route. -/
structure AdminWalletRow where
  circle_wallet_id : String
  address : String
  chain : String
deriving DecidableEq

/-- The `token` object inside a Circle token-balance entry; every field is
optional in the SDK's types (`tb.token?.id`, `token?.decimals`). -/
structure TokenInfo where
  id : Option String
  symbol : Option String
  decimals : Option ℕ
deriving DecidableEq

/-- One entry of `balancesResponse.data?.tokenBalances`. -/
structure TokenBalanceEntry where
  token : Option TokenInfo
  amount : String
deriving DecidableEq

/-- `tokenBalances.find((tb) => tb.token?.id === usdcTokenId)`: strict
equality of `tb.token?.id` (undefined when `token` or `id` is absent) with
the configured token id (undefined when the env var is unset). -/
def findUsdcToken (balances : List TokenBalanceEntry) (usdcTokenId : Option String) :
    Option TokenBalanceEntry :=
  balances.find? fun tb => (tb.token.bind TokenInfo.id) == usdcTokenId

/-- The request body of the payment POST: `{ credits, usdcAmount }`. -/
structure PaymentBody where
  credits : JSVal
  usdcAmount : JSVal
deriving DecidableEq

/-- The row handed to `supabaseAdminClient.from("transactions").insert`
(route.ts lines 148-164). -/
structure TransactionInsert where
  user_id : String
  wallet_id : String
  direction : String
  amount_usdc : JSVal
  credit_amount : JSVal
  exchange_rate : ℚ
  chain : String
  asset : String
  tx_hash : String
  status : String
  idempotency_key : String
  payment_method : String
  circle_transaction_id : String
deriving DecidableEq

/-- The arguments of the `circleDeveloperSdk.createTransaction` call
(route.ts lines 126-137). -/
structure CreateTxArgs where
  walletId : String
  destinationAddress : String
  amount : ℤ
  tokenId : Option String
deriving DecidableEq

/-- Everything the route reads from its environment in one request: the
session, the parsed body, the results of the two wallet queries, the admin
wallet query, the Circle balance listing, the configured token id, and the
outcomes of the two effectful calls it may make (`createTransaction` and
the insert). -/
structure PaymentInput where
  authUser : Option String
  body : PaymentBody
  scaWallet : Option WalletRow
  recentWallet : Option WalletRow
  adminWallet : Option AdminWalletRow
  tokenBalances : List TokenBalanceEntry
  usdcTokenId : Option String
  createTxId : Option String
  insertResult : Except String String

/-- What one request produced: the HTTP response and, for the effectful
calls, whether they happened and with what arguments. -/
structure PaymentOutcome where
  status : ℕ
  error : Option String
  success : Bool
  transactionId : Option String
  circleTransactionId : Option String
  createTxCalled : Option CreateTxArgs
  inserted : Option TransactionInsert
deriving DecidableEq

/-- The SCA-first wallet selection (route.ts lines 48-73): the SCA query's
row if it returned one, otherwise the most-recent-wallet fallback. -/
def resolvedWallet (inp : PaymentInput) : Option WalletRow :=
  inp.scaWallet.orElse fun _ => inp.recentWallet

/-- The amount conversion (route.ts line 116):
`BigInt(Math.floor(amountNum * 100)) * BigInt(10) ** BigInt(decimals - 2)`.
`none` models the two throwing cases: `amountNum` is `NaN`
(`BigInt(NaN)` throws) and `decimals < 2` (a negative `BigInt` exponent
throws). -/
def amountInSmallestUnit (amountNum : Option ℚ) (decimals : ℕ) : Option ℤ :=
  match amountNum with
  | none => none
  | some q => if decimals < 2 then none
      else some (jsFloor (jsMul q 100) * 10 ^ (decimals - 2))

/-- The POST handler of `src/app/api/circle/payment/route.ts`, as a pure
function of everything the request observes.  Early returns become nested
matches, in source order: auth check, body check, SCA-first wallet lookup,
admin wallet lookup, token lookup, amount conversion, `createTransaction`,
insert, success response.  `createTxId = none` models the
`!transactionResponse.data?.id` throw; a `NaN` amount or `decimals < 2`
makes the `BigInt` conversion throw, caught by the outer handler as a 500
(we use the catch-all message for it). -/
def paymentPOST (inp : PaymentInput) : PaymentOutcome :=
  let fail : ℕ → String → PaymentOutcome := fun st msg =>
    { status := st, error := some msg, success := false, transactionId := none,
      circleTransactionId := none, createTxCalled := none, inserted := none }
  match inp.authUser with
  | none => fail 401 "Unauthorized"
  | some uid =>
    if !(inp.body.credits.truthy && inp.body.usdcAmount.truthy) then
      fail 400 "credits and usdcAmount are required"
    else
      match resolvedWallet inp with
      | none =>
        fail 404 "Circle Developer Wallet not found. Please create one in the Wallet Demo first."
      | some w =>
        match inp.adminWallet with
        | none => fail 500 "Platform admin wallet not configured"
        | some admin =>
          match findUsdcToken inp.tokenBalances inp.usdcTokenId with
          | none => fail 400 "USDC balance not found in wallet."
          | some tb =>
            let decimals := (tb.token.bind TokenInfo.decimals).getD 6
            match amountInSmallestUnit inp.body.usdcAmount.toNum decimals with
            | none => fail 500 "An unexpected error occurred"
            | some amt =>
              let args : CreateTxArgs :=
                { walletId := w.circle_wallet_id, destinationAddress := admin.address,
                  amount := amt, tokenId := inp.usdcTokenId }
              match inp.createTxId with
              | none =>
                { status := 500, error := some "Failed to initiate Circle transaction",
                  success := false, transactionId := none, circleTransactionId := none,
                  createTxCalled := some args, inserted := none }
              | some ctid =>
                let row : TransactionInsert :=
                  { user_id := uid, wallet_id := w.circle_wallet_id, direction := "credit",
                    amount_usdc := inp.body.usdcAmount, credit_amount := inp.body.credits,
                    exchange_rate := 1, chain := w.blockchain, asset := "USDC",
                    tx_hash := "pending", status := "pending",
                    idempotency_key := "client:" ++ ctid,
                    payment_method := "circle_developer_wallet",
                    circle_transaction_id := ctid }
                let txid :=
                  match inp.insertResult with
                  | .ok rid => if rid != "" then rid else ctid
                  | .error _ => ctid
                { status := 200, error := none, success := true,
                  transactionId := some txid, circleTransactionId := some ctid,
                  createTxCalled := some args, inserted := some row }

/-! ## The `PurchaseCreditsCard` client component (`src/unnamed/part_001`) -/

/-- `type WalletType = "external" | "circle"`. -/
inductive WalletType where
  | external
  | circle
deriving DecidableEq

/-- The component's state, as read by the derived values
(`requiredUsdc`, `hasSufficientBalance`, `buttonDisabled`) and the two
submit handlers.  `externalBalance` is the on-chain bigint balance in
smallest units; `circleBalance` is the decimal string from the balance
endpoint; `destination` is the fetched receiving address (undefined until
resolution succeeds). -/
structure UIState where
  walletType : WalletType
  isExternalConnected : Bool
  externalBalance : Option ℤ
  hasExternalBalance : Bool
  isExternalBalanceLoading : Bool
  usdcAddress : Option String
  creditsToPurchase : ℚ
  isSubmitting : Bool
  selectedCircleWalletId : Option String
  circleBalance : Option String
  destination : Option String

/-- `const USDC_PER_CREDIT = 1`. -/
def USDC_PER_CREDIT : ℚ := 1

/-- `const requiredUsdc = creditsToPurchase * USDC_PER_CREDIT`.  The double
product is written exactly: multiplying a binary64 value by 1 is exact. -/
def requiredUsdc (s : UIState) : ℚ :=
  s.creditsToPurchase * USDC_PER_CREDIT

/-- `requiredUsdcMicro = BigInt(Math.round(requiredUsdc * 1_000_000))`
(part_001 lines 150-154). -/
def requiredUsdcMicro (s : UIState) : ℤ :=
  jsRound (jsMul (requiredUsdc s) 1000000)

/-- `hasSufficientBalance` (part_001 lines 156-164): external path compares
the on-chain bigint against `requiredUsdcMicro`; the circle path parses the
balance string and compares doubles against `requiredUsdc` (`NaN` and a
falsy string both yield false). -/
def hasSufficientBalance (s : UIState) : Bool :=
  match s.walletType with
  | .external =>
    match s.externalBalance with
    | some b => if s.hasExternalBalance then decide (requiredUsdcMicro s ≤ b) else false
    | none => false
  | .circle =>
    match s.circleBalance with
    | some bal =>
      if bal != "" then
        match jsParseFloat bal with
        | some v => decide (requiredUsdc s ≤ v)
        | none => false
      else false
    | none => false

/-- `isConnected` (part_001 line 166). -/
def isConnected (s : UIState) : Bool :=
  match s.walletType with
  | .external => s.isExternalConnected
  | .circle => strTruthy s.selectedCircleWalletId

/-- `buttonDisabled` (part_001 lines 168-175), the `disabled` prop of the
single pay Button (line 415). -/
def buttonDisabled (s : UIState) : Bool :=
  !isConnected s ||
  !hasSufficientBalance s ||
  decide (s.creditsToPurchase ≤ 0) ||
  !strTruthy s.destination ||
  (s.walletType == .external && !strTruthy s.usdcAddress) ||
  s.isSubmitting ||
  (s.walletType == .external && s.isExternalBalanceLoading)

/-- The body `handleCirclePurchase` posts to `/api/circle/payment`
(part_001 lines 262-265): `{ credits: creditsToPurchase,
usdcAmount: requiredUsdc }`. -/
def circlePurchaseBody (s : UIState) : PaymentBody :=
  { credits := .num s.creditsToPurchase, usdcAmount := .num (requiredUsdc s) }

/-- The body `handleExternalPurchase` posts to `/api/transactions`
(part_001 lines 215-222). -/
structure ExternalTxBody where
  credits : ℚ
  usdcAmount : ℚ
  txHash : String
  chainId : ℕ
  walletAddress : String
  destinationAddress : String

/-- The external-path persistence body: `{ credits: creditsToPurchase,
usdcAmount: requiredUsdc, txHash, chainId, walletAddress: externalAddress,
destinationAddress: destination }`. -/
def externalPurchaseBody (s : UIState) (txHash : String) (chainId : ℕ)
    (walletAddress destination : String) : ExternalTxBody :=
  { credits := s.creditsToPurchase, usdcAmount := requiredUsdc s,
    txHash := txHash, chainId := chainId, walletAddress := walletAddress,
    destinationAddress := destination }

/-! ## The custodial balance route (`src/unnamed/part_003`, GET) -/

/-- What one balance request observes: the `walletId` query parameter, the
session, the Circle balance listing (the SDK call is assumed to return),
and the configured token id. -/
structure BalanceInput where
  walletIdParam : Option String
  authUser : Option String
  tokenBalances : List TokenBalanceEntry
  usdcTokenId : Option String

/-- The balance route's JSON response. -/
structure BalanceResponse where
  status : ℕ
  error : Option String
  balance : Option String
  rawBalance : Option TokenBalanceEntry
deriving DecidableEq

/-- The GET handler of the balance route: parameter check, auth check, then
`{ balance: usdcBalance?.amount || "0", rawBalance: usdcBalance || null }`
with status 200 whether or not the configured token id was found. -/
def balanceGET (inp : BalanceInput) : BalanceResponse :=
  if !strTruthy inp.walletIdParam then
    { status := 400, error := some "walletId is required", balance := none, rawBalance := none }
  else
    match inp.authUser with
    | none => { status := 401, error := some "Unauthorized", balance := none, rawBalance := none }
    | some _ =>
      let usdcBalance := findUsdcToken inp.tokenBalances inp.usdcTokenId
      { status := 200, error := none,
        balance := some (match usdcBalance with
          | some tb => if tb.amount != "" then tb.amount else "0"
          | none => "0"),
        rawBalance := usdcBalance }

/-- The conversion applied to a decimal amount `a` arriving as a JSON
number: the route sees the binary64 value of `a` and scales it
(route.ts lines 110-116 with `decimals = d`). -/
def convert (a : ℚ) (d : ℕ) : Option ℤ :=
  amountInSmallestUnit (some (toFloat a)) d

/-! ## Theorems -/

/-- `Rat.floor` is the `⌊·⌋` of ℚ's `FloorRing` instance. -/
theorem ratFloor_eq_floor (q : ℚ) : q.floor = ⌊q⌋ := rfl

/-- Any transaction row the payment route inserts carries `amount_usdc`
equal to the request body's `usdcAmount`, unvalidated. -/
theorem inserted_carries_body_usdcAmount (inp : PaymentInput) (row : TransactionInsert)
    (h : (paymentPOST inp).inserted = some row) :
    row.amount_usdc = inp.body.usdcAmount := by
  unfold paymentPOST at h
  dsimp only at h
  repeat' split at h
  all_goals cases h
  all_goals rfl

/-- C1 counterexample: the route's conversion uses
`Math.floor(amountNum * 100)` on doubles; at the two-fractional-digit
amount `0.29` with 6 token decimals the double product is
`28.999999999999996`, so the conversion yields `280000`, not
`round(0.29 × 10^6) = 290000`. -/
theorem convert_drifts_at_29_cents :
    convert (29 / 100) 6 ≠ some (round (((29 : ℚ) / 100) * 10 ^ 6)) := by
  have h1 : convert (29 / 100) 6 = some 280000 := by decide
  have h2 : round (((29 : ℚ) / 100) * 10 ^ 6) = 290000 := by norm_num [round_eq]
  rw [h1, h2]
  decide

/-- C1 (amended): for a decimal amount `c / 100` (at most two fractional
digits) and token decimals `d ≥ 2`, the conversion returns exactly
`round(a × 10^d)` whenever the floating-point product
`double(a) * 100` is exactly the cent count `c` — which holds for the
spec's examples 10.00 and 25.50 but not for every such amount. -/
theorem convert_exact_when_product_exact (c d : ℕ) (h2 : 2 ≤ d)
    (hfl : jsMul (toFloat ((c : ℚ) / 100)) 100 = (c : ℚ)) :
    convert ((c : ℚ) / 100) d = some (round (((c : ℚ) / 100) * 10 ^ d)) := by
  have hd : d - 2 + 2 = d := Nat.sub_add_cancel h2
  have h10 : (10 : ℚ) ^ d = 10 ^ (d - 2) * 10 ^ 2 := by
    rw [← pow_add, hd]
  have hval : ((c : ℚ) / 100) * 10 ^ d = ((c * 10 ^ (d - 2) : ℕ) : ℚ) := by
    rw [h10]
    push_cast
    field_simp
    ring
  rw [convert, amountInSmallestUnit, if_neg (by omega), hfl, hval, round_natCast]
  rw [jsFloor, ratFloor_eq_floor, Int.floor_natCast]
  push_cast
  ring_nf

/-- C1 witness: at 25.50 USDC and 6 decimals the product is exact and the
conversion equals `round(25.50 × 10^6) = 25500000`. -/
theorem convert_exact_witness :
    2 ≤ 6 ∧ jsMul (toFloat (((2550 : ℕ) : ℚ) / 100)) 100 = ((2550 : ℕ) : ℚ) ∧
      convert (((2550 : ℕ) : ℚ) / 100) 6 =
        some (round ((((2550 : ℕ) : ℚ) / 100) * 10 ^ 6)) :=
  ⟨by norm_num, by decide, convert_exact_when_product_exact 2550 6 (by norm_num) (by decide)⟩

/-- C2: when the configured USDC token id is absent from the wallet's
balance listing, the payment route answers with the "USDC balance not
found" error (the spec's NotFound-class condition, distinct from
insufficient funds), and neither the `createTransaction` dispatch nor the
insert happens. -/
theorem token_not_found_short_circuits (inp : PaymentInput) (uid : String)
    (w : WalletRow) (a : AdminWalletRow)
    (hauth : inp.authUser = some uid)
    (hbody : (inp.body.credits.truthy && inp.body.usdcAmount.truthy) = true)
    (hw : resolvedWallet inp = some w)
    (ha : inp.adminWallet = some a)
    (ht : findUsdcToken inp.tokenBalances inp.usdcTokenId = none) :
    (paymentPOST inp).status = 400 ∧
      (paymentPOST inp).error = some "USDC balance not found in wallet." ∧
      (paymentPOST inp).createTxCalled = none ∧
      (paymentPOST inp).inserted = none := by
  unfold paymentPOST
  rw [hauth, hw, ha, ht, hbody]
  simp

/-! Concrete fixtures for the witnesses. -/

/-- A sample user wallet row. -/
def wallet0 : WalletRow :=
  { circle_wallet_id := "cw-1", blockchain := "ARB-SEPOLIA", address := "0xUSER",
    type := "SCA" }

/-- A sample admin wallet row. -/
def admin0 : AdminWalletRow :=
  { circle_wallet_id := "cw-admin", address := "0xADMIN", chain := "ARB-SEPOLIA" }

/-- A balance entry whose token is the configured USDC token. -/
def usdcEntry : TokenBalanceEntry :=
  { token := some { id := some "tok-usdc", symbol := some "USDC", decimals := some 6 },
    amount := "100.00" }

/-- A balance entry for some other token. -/
def otherEntry : TokenBalanceEntry :=
  { token := some { id := some "tok-eth", symbol := some "ETH", decimals := some 18 },
    amount := "5" }

/-- A payment request whose wallet holds no entry for the configured USDC
token id. -/
def inputNoToken : PaymentInput :=
  { authUser := some "user-1",
    body := { credits := .num 100, usdcAmount := .num 100 },
    scaWallet := some wallet0, recentWallet := none,
    adminWallet := some admin0,
    tokenBalances := [otherEntry],
    usdcTokenId := some "tok-usdc",
    createTxId := some "ct-1", insertResult := .ok "row-1" }

/-- A payment request for 100 credits on which every step succeeds. -/
def inputSuccess : PaymentInput :=
  { authUser := some "user-1",
    body := { credits := .num 100, usdcAmount := .num 100 },
    scaWallet := some wallet0, recentWallet := none,
    adminWallet := some admin0,
    tokenBalances := [usdcEntry],
    usdcTokenId := some "tok-usdc",
    createTxId := some "ct-1", insertResult := .ok "row-1" }

/-- C2 witness: a concrete request with the token id unmapped is answered
with the not-found error and no dispatch or insert. -/
theorem token_not_found_short_circuits_witness :
    (paymentPOST inputNoToken).status = 400 ∧
      (paymentPOST inputNoToken).error = some "USDC balance not found in wallet." ∧
      (paymentPOST inputNoToken).createTxCalled = none ∧
      (paymentPOST inputNoToken).inserted = none :=
  token_not_found_short_circuits inputNoToken "user-1" wallet0 admin0 rfl (by decide)
    rfl rfl (by decide)

/-- C3: when every step up to and including `createTransaction` succeeds
and the provider returns transaction id `ctid`, the row handed to the
insert has `status = "pending"`, the placeholder `tx_hash = "pending"`,
and the idempotency key `"client:" ++ ctid`, which contains the provider
transaction id. -/
theorem success_insert_shape (inp : PaymentInput) (uid : String)
    (w : WalletRow) (a : AdminWalletRow) (tb : TokenBalanceEntry) (amt : ℤ)
    (ctid : String)
    (hauth : inp.authUser = some uid)
    (hbody : (inp.body.credits.truthy && inp.body.usdcAmount.truthy) = true)
    (hw : resolvedWallet inp = some w)
    (ha : inp.adminWallet = some a)
    (ht : findUsdcToken inp.tokenBalances inp.usdcTokenId = some tb)
    (hamt : amountInSmallestUnit inp.body.usdcAmount.toNum
      ((tb.token.bind TokenInfo.decimals).getD 6) = some amt)
    (hct : inp.createTxId = some ctid) :
    ∃ row : TransactionInsert, (paymentPOST inp).inserted = some row ∧
      row.status = "pending" ∧ row.tx_hash = "pending" ∧
      row.idempotency_key = "client:" ++ ctid := by
  simp only [paymentPOST, hauth, hbody, hw, ha, ht, hamt, hct, Bool.not_true,
    Bool.false_eq_true, if_false]
  exact ⟨_, rfl, rfl, rfl, rfl⟩

/-- C3 witness: the end-to-end example — 100 credits, 6 decimals, a
dispatch of 100000000 atoms accepted as `"ct-1"` — inserts a pending row
keyed `"client:ct-1"`. -/
theorem success_insert_shape_witness :
    ∃ row : TransactionInsert, (paymentPOST inputSuccess).inserted = some row ∧
      row.status = "pending" ∧ row.tx_hash = "pending" ∧
      row.idempotency_key = "client:" ++ "ct-1" :=
  success_insert_shape inputSuccess "user-1" wallet0 admin0 usdcEntry 100000000 "ct-1"
    rfl (by decide) rfl rfl (by decide) (by decide) rfl

/-- C8: when `createTransaction` succeeded with id `ctid` but the insert
failed, the route still answers 200 `{ success: true }` with the provider
transaction id as the returned transaction id. -/
theorem insert_failure_still_success (inp : PaymentInput) (uid : String)
    (w : WalletRow) (a : AdminWalletRow) (tb : TokenBalanceEntry) (amt : ℤ)
    (ctid e : String)
    (hauth : inp.authUser = some uid)
    (hbody : (inp.body.credits.truthy && inp.body.usdcAmount.truthy) = true)
    (hw : resolvedWallet inp = some w)
    (ha : inp.adminWallet = some a)
    (ht : findUsdcToken inp.tokenBalances inp.usdcTokenId = some tb)
    (hamt : amountInSmallestUnit inp.body.usdcAmount.toNum
      ((tb.token.bind TokenInfo.decimals).getD 6) = some amt)
    (hct : inp.createTxId = some ctid)
    (hins : inp.insertResult = Except.error e) :
    (paymentPOST inp).status = 200 ∧ (paymentPOST inp).success = true ∧
      (paymentPOST inp).error = none ∧
      (paymentPOST inp).transactionId = some ctid ∧
      (paymentPOST inp).circleTransactionId = some ctid := by
  simp only [paymentPOST, hauth, hbody, hw, ha, ht, hamt, hct, hins, Bool.not_true,
    Bool.false_eq_true, if_false]
  exact ⟨trivial, trivial, trivial, trivial, trivial⟩

/-- The success request with a failing database insert. -/
def inputInsertFails : PaymentInput :=
  { inputSuccess with insertResult := .error "db down" }

/-- C8 witness: a concrete dispatch-succeeded, insert-failed request still
returns 200 success with the provider transaction id. -/
theorem insert_failure_still_success_witness :
    (paymentPOST inputInsertFails).status = 200 ∧
      (paymentPOST inputInsertFails).success = true ∧
      (paymentPOST inputInsertFails).error = none ∧
      (paymentPOST inputInsertFails).transactionId = some "ct-1" ∧
      (paymentPOST inputInsertFails).circleTransactionId = some "ct-1" :=
  insert_failure_still_success inputInsertFails "user-1" wallet0 admin0 usdcEntry
    100000000 "ct-1" "db down" rfl (by decide) rfl rfl (by decide) (by decide) rfl rfl

/-- C4: whenever `isSubmitting` is true the pay button's `disabled` prop is
true, so a second click while a dispatch is in flight cannot issue another
dispatch — regardless of every other piece of UI state. -/
theorem submitting_disables_button (s : UIState) (h : s.isSubmitting = true) :
    buttonDisabled s = true := by
  simp [buttonDisabled, h]

/-- A UI state mid-submission on the custodial path. -/
def uiSubmitting : UIState :=
  { walletType := .circle, isExternalConnected := false, externalBalance := none,
    hasExternalBalance := false, isExternalBalanceLoading := false,
    usdcAddress := none, creditsToPurchase := 10, isSubmitting := true,
    selectedCircleWalletId := some "cw-1", circleBalance := some "100.00",
    destination := some "0xADMIN" }

/-- C4 witness: in a concrete state that is otherwise fully able to pay,
`isSubmitting = true` alone disables the button. -/
theorem submitting_disables_button_witness :
    buttonDisabled uiSubmitting = true :=
  submitting_disables_button uiSubmitting rfl

/-- C5: on the external path, once the balance is loaded
(`hasExternalBalance` and a non-null bigint balance `b`), sufficiency is
exactly the integer comparison `requiredUsdcMicro ≤ b` on smallest
units. -/
theorem external_sufficiency_is_integer_compare (s : UIState) (b : ℤ)
    (hw : s.walletType = .external) (hhb : s.hasExternalBalance = true)
    (hb : s.externalBalance = some b) :
    hasSufficientBalance s = decide (requiredUsdcMicro s ≤ b) := by
  simp [hasSufficientBalance, hw, hhb, hb]

/-- An external-path state holding 9.999999 USDC against a 10-credit
purchase. -/
def uiExternalShort : UIState :=
  { walletType := .external, isExternalConnected := true,
    externalBalance := some 9999999, hasExternalBalance := true,
    isExternalBalanceLoading := false, usdcAddress := some "0xUSDC",
    creditsToPurchase := 10, isSubmitting := false,
    selectedCircleWalletId := none, circleBalance := none,
    destination := some "0xADMIN" }

/-- C5 witness: balance 9999999 against requirement 10000000 smallest
units is insufficient. -/
theorem external_sufficiency_witness :
    hasSufficientBalance uiExternalShort = false ∧
      requiredUsdcMicro uiExternalShort = 10000000 :=
  ⟨(external_sufficiency_is_integer_compare uiExternalShort 9999999 rfl rfl rfl).trans
    (by decide), by decide⟩

/-- C6: on the custodial path, with a truthy balance string that parses to
the double `v`, sufficiency is the parsed-decimal comparison
`requiredUsdc ≤ v` — decimals, not smallest-unit integers. -/
theorem circle_sufficiency_parses_decimal (s : UIState) (bal : String) (v : ℚ)
    (hw : s.walletType = .circle) (hb : s.circleBalance = some bal)
    (hne : bal ≠ "") (hp : jsParseFloat bal = some v) :
    hasSufficientBalance s = decide (requiredUsdc s ≤ v) := by
  simp [hasSufficientBalance, hw, hb, hp, hne]

/-- A custodial-path state with balance string "100.00" against a
50-credit purchase. -/
def uiCircle : UIState :=
  { walletType := .circle, isExternalConnected := false, externalBalance := none,
    hasExternalBalance := false, isExternalBalanceLoading := false,
    usdcAddress := none, creditsToPurchase := 50, isSubmitting := false,
    selectedCircleWalletId := some "cw-1", circleBalance := some "100.00",
    destination := some "0xADMIN" }

/-- C6 witness: `"100.00"` parses to 100 and suffices for requirement
50. -/
theorem circle_sufficiency_witness :
    jsParseFloat "100.00" = some 100 ∧ hasSufficientBalance uiCircle = true :=
  ⟨by decide,
    (circle_sufficiency_parses_decimal uiCircle "100.00" 100 rfl rfl (by decide)
      (by decide)).trans (by decide)⟩

/-- C7: the USDC amount is always `credits × USDC_PER_CREDIT` with the
fixed rate 1 — in the custodial dispatch body, in the external persistence
body, and (for a request built by the UI) in any transaction row the
payment route inserts; it is never independently entered. -/
theorem usdcAmount_always_derived (s : UIState) (inp : PaymentInput)
    (hb : inp.body = circlePurchaseBody s) (txHash : String) (chainId : ℕ)
    (wa dest : String) :
    (circlePurchaseBody s).usdcAmount = JSVal.num (s.creditsToPurchase * 1) ∧
      (externalPurchaseBody s txHash chainId wa dest).usdcAmount =
        s.creditsToPurchase * 1 ∧
      ∀ row : TransactionInsert, (paymentPOST inp).inserted = some row →
        row.amount_usdc = JSVal.num (s.creditsToPurchase * 1) := by
  refine ⟨rfl, rfl, fun row h => ?_⟩
  rw [inserted_carries_body_usdcAmount inp row h, hb]
  rfl

/-- The success request as the UI would build it from `uiCircle`. -/
def inputFromUI : PaymentInput :=
  { inputSuccess with body := circlePurchaseBody uiCircle }

/-- C7 witness: for the concrete 50-credit state, the dispatched and
persisted amounts all equal 50 × 1. -/
theorem usdcAmount_always_derived_witness :
    (circlePurchaseBody uiCircle).usdcAmount =
        JSVal.num (uiCircle.creditsToPurchase * 1) ∧
      (externalPurchaseBody uiCircle "0xHASH" 421614 "0xUSER" "0xADMIN").usdcAmount =
        uiCircle.creditsToPurchase * 1 ∧
      ∀ row : TransactionInsert, (paymentPOST inputFromUI).inserted = some row →
        row.amount_usdc = JSVal.num (uiCircle.creditsToPurchase * 1) :=
  usdcAmount_always_derived uiCircle inputFromUI rfl "0xHASH" 421614 "0xUSER" "0xADMIN"

/-- C9: while the destination address is unresolved (`undefined`), the pay
button is disabled, whatever the wallet selection and balances say. -/
theorem missing_destination_disables_button (s : UIState)
    (h : s.destination = none) : buttonDisabled s = true := by
  simp [buttonDisabled, strTruthy, h]

/-- A custodial-path state that could otherwise pay (connected, funded,
positive credits, not submitting) but whose destination fetch has not
resolved. -/
def uiNoDestination : UIState :=
  { walletType := .circle, isExternalConnected := false, externalBalance := none,
    hasExternalBalance := false, isExternalBalanceLoading := false,
    usdcAddress := none, creditsToPurchase := 50, isSubmitting := false,
    selectedCircleWalletId := some "cw-1", circleBalance := some "100.00",
    destination := none }

/-- C9 witness: the concrete funded, connected state with no destination
still has the button disabled. -/
theorem missing_destination_disables_button_witness :
    buttonDisabled uiNoDestination = true :=
  missing_destination_disables_button uiNoDestination rfl

/-- C10: an authenticated balance request whose listing lacks the
configured token id is answered 200 with balance `"0"` and `rawBalance`
null — indistinguishable from a zero balance, unlike the payment route's
400 for the same condition. -/
theorem balance_missing_token_reads_zero (inp : BalanceInput) (uid : String)
    (hwid : strTruthy inp.walletIdParam = true)
    (hauth : inp.authUser = some uid)
    (ht : findUsdcToken inp.tokenBalances inp.usdcTokenId = none) :
    (balanceGET inp).status = 200 ∧ (balanceGET inp).error = none ∧
      (balanceGET inp).balance = some "0" ∧ (balanceGET inp).rawBalance = none := by
  simp [balanceGET, hwid, hauth, ht]

/-- A balance request against a wallet holding only a different token. -/
def balanceInputNoToken : BalanceInput :=
  { walletIdParam := some "cw-1", authUser := some "user-1",
    tokenBalances := [otherEntry], usdcTokenId := some "tok-usdc" }

/-- C10 witness: the concrete unmapped-token balance request yields
200/"0"/null. -/
theorem balance_missing_token_reads_zero_witness :
    (balanceGET balanceInputNoToken).status = 200 ∧
      (balanceGET balanceInputNoToken).error = none ∧
      (balanceGET balanceInputNoToken).balance = some "0" ∧
      (balanceGET balanceInputNoToken).rawBalance = none :=
  balance_missing_token_reads_zero balanceInputNoToken "user-1" rfl rfl (by decide)

end ArcCommerce
